import Mathlib

/-!
Shallow embedding of `src/d2c.py`, a Python client for the Dev2Cloud
sandbox-provisioning REST API, together with proofs of the spec's claims.

Modelling conventions:
* JSON values are an inductive `Json`; the HTTP layer (the `requests`
  library) is abstracted into an `HttpResponse` record carrying the numeric
  status code, the raw body text, and the result of parsing the body as
  JSON (`none` models `response.json()` raising `ValueError`).
* Python exceptions are the inductive `PyExc`; the client's normalized
  error class `Dev2CloudError` is one of its constructors (it is a Python
  exception too).  Fallible code returns `Except PyExc _`.
* `time.monotonic` / `time.sleep(1)` in `create_sandbox`'s poll loop are
  modelled by counting unit sleeps: every sleep advances the clock by
  exactly 1 second and everything else is instantaneous, so elapsed time
  equals the number of sleeps performed.  The loop records an explicit
  event trace (sleeps and re-fetches) and is written with fuel; claims are
  proved for sufficient fuel.
-/

/-- JSON values, with integer numerics (all numbers appearing in the
claims are integers). -/
inductive Json where
  | null : Json
  | bool : Bool → Json
  | num : Int → Json
  | str : String → Json
  | arr : List Json → Json
  | obj : List (String × Json) → Json
  deriving Repr

mutual
/-- Decidable equality on `Json` (the deriving handler does not support
this nested inductive). -/
def Json.decEq : (a b : Json) → Decidable (a = b)
  | Json.null, Json.null => isTrue rfl
  | Json.bool x, Json.bool y =>
      if h : x = y then isTrue (by rw [h]) else isFalse (by intro hc; injection hc; contradiction)
  | Json.num x, Json.num y =>
      if h : x = y then isTrue (by rw [h]) else isFalse (by intro hc; injection hc; contradiction)
  | Json.str x, Json.str y =>
      if h : x = y then isTrue (by rw [h]) else isFalse (by intro hc; injection hc; contradiction)
  | Json.arr xs, Json.arr ys =>
      match Json.decEqList xs ys with
      | isTrue h => isTrue (by rw [h])
      | isFalse h => isFalse (by intro hc; injection hc; contradiction)
  | Json.obj xs, Json.obj ys =>
      match Json.decEqObj xs ys with
      | isTrue h => isTrue (by rw [h])
      | isFalse h => isFalse (by intro hc; injection hc; contradiction)
  | Json.null, Json.bool _ => isFalse (by intro h; exact Json.noConfusion h)
  | Json.null, Json.num _ => isFalse (by intro h; exact Json.noConfusion h)
  | Json.null, Json.str _ => isFalse (by intro h; exact Json.noConfusion h)
  | Json.null, Json.arr _ => isFalse (by intro h; exact Json.noConfusion h)
  | Json.null, Json.obj _ => isFalse (by intro h; exact Json.noConfusion h)
  | Json.bool _, Json.null => isFalse (by intro h; exact Json.noConfusion h)
  | Json.bool _, Json.num _ => isFalse (by intro h; exact Json.noConfusion h)
  | Json.bool _, Json.str _ => isFalse (by intro h; exact Json.noConfusion h)
  | Json.bool _, Json.arr _ => isFalse (by intro h; exact Json.noConfusion h)
  | Json.bool _, Json.obj _ => isFalse (by intro h; exact Json.noConfusion h)
  | Json.num _, Json.null => isFalse (by intro h; exact Json.noConfusion h)
  | Json.num _, Json.bool _ => isFalse (by intro h; exact Json.noConfusion h)
  | Json.num _, Json.str _ => isFalse (by intro h; exact Json.noConfusion h)
  | Json.num _, Json.arr _ => isFalse (by intro h; exact Json.noConfusion h)
  | Json.num _, Json.obj _ => isFalse (by intro h; exact Json.noConfusion h)
  | Json.str _, Json.null => isFalse (by intro h; exact Json.noConfusion h)
  | Json.str _, Json.bool _ => isFalse (by intro h; exact Json.noConfusion h)
  | Json.str _, Json.num _ => isFalse (by intro h; exact Json.noConfusion h)
  | Json.str _, Json.arr _ => isFalse (by intro h; exact Json.noConfusion h)
  | Json.str _, Json.obj _ => isFalse (by intro h; exact Json.noConfusion h)
  | Json.arr _, Json.null => isFalse (by intro h; exact Json.noConfusion h)
  | Json.arr _, Json.bool _ => isFalse (by intro h; exact Json.noConfusion h)
  | Json.arr _, Json.num _ => isFalse (by intro h; exact Json.noConfusion h)
  | Json.arr _, Json.str _ => isFalse (by intro h; exact Json.noConfusion h)
  | Json.arr _, Json.obj _ => isFalse (by intro h; exact Json.noConfusion h)
  | Json.obj _, Json.null => isFalse (by intro h; exact Json.noConfusion h)
  | Json.obj _, Json.bool _ => isFalse (by intro h; exact Json.noConfusion h)
  | Json.obj _, Json.num _ => isFalse (by intro h; exact Json.noConfusion h)
  | Json.obj _, Json.str _ => isFalse (by intro h; exact Json.noConfusion h)
  | Json.obj _, Json.arr _ => isFalse (by intro h; exact Json.noConfusion h)

/-- Decidable equality on lists of `Json`. -/
def Json.decEqList : (xs ys : List Json) → Decidable (xs = ys)
  | [], [] => isTrue rfl
  | [], _ :: _ => isFalse (by intro h; exact List.noConfusion h)
  | _ :: _, [] => isFalse (by intro h; exact List.noConfusion h)
  | x :: xs, y :: ys =>
      match Json.decEq x y, Json.decEqList xs ys with
      | isTrue h1, isTrue h2 => isTrue (by rw [h1, h2])
      | isFalse h1, _ => isFalse (by intro hc; injection hc; contradiction)
      | _, isFalse h2 => isFalse (by intro hc; injection hc; contradiction)

/-- Decidable equality on `Json` object field lists. -/
def Json.decEqObj : (xs ys : List (String × Json)) → Decidable (xs = ys)
  | [], [] => isTrue rfl
  | [], _ :: _ => isFalse (by intro h; exact List.noConfusion h)
  | _ :: _, [] => isFalse (by intro h; exact List.noConfusion h)
  | (k1, v1) :: xs, (k2, v2) :: ys =>
      if hk : k1 = k2 then
        match Json.decEq v1 v2, Json.decEqObj xs ys with
        | isTrue h1, isTrue h2 => isTrue (by rw [hk, h1, h2])
        | isFalse h1, _ =>
            isFalse (by intro hc; injection hc with hp ht; injection hp; contradiction)
        | _, isFalse h2 => isFalse (by intro hc; injection hc; contradiction)
      else isFalse (by intro hc; injection hc with hp ht; injection hp; contradiction)
end

instance : DecidableEq Json := Json.decEq

/-- Decidable equality for `Except` values (not provided by core). -/
instance {ε α : Type} [DecidableEq ε] [DecidableEq α] : DecidableEq (Except ε α) := fun a b =>
  match a, b with
  | Except.ok x, Except.ok y =>
      if h : x = y then isTrue (by rw [h])
      else isFalse (by intro hc; injection hc; contradiction)
  | Except.error x, Except.error y =>
      if h : x = y then isTrue (by rw [h])
      else isFalse (by intro hc; injection hc; contradiction)
  | Except.ok _, Except.error _ => isFalse (by intro hc; exact Except.noConfusion hc)
  | Except.error _, Except.ok _ => isFalse (by intro hc; exact Except.noConfusion hc)

/-- Lookup of a key in a JSON object's field list (Python dict access). -/
def Json.lookup (fields : List (String × Json)) (k : String) : Option Json :=
  (fields.find? (fun p => p.1 = k)).map (fun p => p.2)

mutual
/-- Python `repr` of a JSON-shaped value (string escaping elided — no
claim involves quotes inside credential strings). -/
def pyRepr : Json → String
  | Json.null => "None"
  | Json.bool true => "True"
  | Json.bool false => "False"
  | Json.num n => toString n
  | Json.str s => "'" ++ s ++ "'"
  | Json.arr xs => "[" ++ pyReprList xs ++ "]"
  | Json.obj fs => "\x7b" ++ pyReprObj fs ++ "\x7d"

/-- `repr` of a Python list's elements, comma separated. -/
def pyReprList : List Json → String
  | [] => ""
  | [x] => pyRepr x
  | x :: xs => pyRepr x ++ ", " ++ pyReprList xs

/-- `repr` of a Python dict's items, comma separated. -/
def pyReprObj : List (String × Json) → String
  | [] => ""
  | [(k, v)] => "'" ++ k ++ "': " ++ pyRepr v
  | (k, v) :: xs => "'" ++ k ++ "': " ++ pyRepr v ++ ", " ++ pyReprObj xs
end

/-- Python `str()` as used by f-string interpolation: identity on
strings, `repr`-like on everything else. -/
def pyStr : Json → String
  | Json.str s => s
  | j => pyRepr j

/-- Python exceptions that can escape the client's code paths.  The
client's own normalized error (`Dev2CloudError(status_code, detail)`,
src/d2c.py lines 34-40) is the `d2c` constructor; its `detail` attribute
is an arbitrary Python value (`Any`), modelled as `Json` (plain strings
are `Json.str`). -/
inductive PyExc where
  | valueError : String → PyExc
  | keyError : String → PyExc
  | typeError : String → PyExc
  | attributeError : String → PyExc
  | validationError : String → PyExc
  | d2c : Int → Json → PyExc
  deriving Repr, DecidableEq

/-- An HTTP response as the client observes it through `requests`:
`status_code`, the body text, and the outcome of `response.json()`
(`none` models the `ValueError` raised on a malformed body). -/
structure HttpResponse where
  status_code : Int
  text : String
  json? : Option Json
  deriving Repr, DecidableEq

/-- `requests.Response.ok`: true unless the status code is a 4xx/5xx. -/
def HttpResponse.ok (r : HttpResponse) : Bool :=
  decide (r.status_code < 400 ∨ 600 ≤ r.status_code)

/-- `Dev2Cloud._raise_on_error` (src/d2c.py lines 80-88): return on a
successful response; otherwise compute `detail` as
`response.json().get("detail", response.text)` — where `.json()` raising
`ValueError` is caught and falls back to the raw text, but `.get` on a
non-dict JSON value raises `AttributeError`, which is NOT caught — and
raise `Dev2CloudError(status_code, detail)`. -/
def raise_on_error (r : HttpResponse) : Except PyExc Unit :=
  if r.ok then Except.ok ()
  else
    match r.json? with
    | none => Except.error (PyExc.d2c r.status_code (Json.str r.text))
    | some (Json.obj fs) =>
        Except.error (PyExc.d2c r.status_code ((Json.lookup fs "detail").getD (Json.str r.text)))
    | some _ => Except.error (PyExc.attributeError "get")

/-- `datetime.fromisoformat` validity, modelled on the basic
`YYYY-MM-DDTHH:MM:SS` shape (the only shape exercised by the claims):
four year digits, dashes, a `T` separator, colons, and in-range month,
day, hour, minute, second fields. -/
def fromisoformatOk (s : String) : Bool :=
  match s.data with
  | [y1, y2, y3, y4, s1, mo1, mo2, s2, d1, d2, sep, h1, h2, c1, mi1, mi2, c2, se1, se2] =>
      y1.isDigit && y2.isDigit && y3.isDigit && y4.isDigit &&
      (s1 == '-') && (s2 == '-') && (sep == 'T') && (c1 == ':') && (c2 == ':') &&
      mo1.isDigit && mo2.isDigit && d1.isDigit && d2.isDigit &&
      h1.isDigit && h2.isDigit && mi1.isDigit && mi2.isDigit &&
      se1.isDigit && se2.isDigit &&
      (let mo := 10 * (mo1.toNat - 48) + (mo2.toNat - 48)
       let d := 10 * (d1.toNat - 48) + (d2.toNat - 48)
       let h := 10 * (h1.toNat - 48) + (h2.toNat - 48)
       let mi := 10 * (mi1.toNat - 48) + (mi2.toNat - 48)
       let se := 10 * (se1.toNat - 48) + (se2.toNat - 48)
       decide (1 ≤ mo) && decide (mo ≤ 12) && decide (1 ≤ d) && decide (d ≤ 31) &&
       decide (h ≤ 23) && decide (mi ≤ 59) && decide (se ≤ 59))
  | _ => false

/-- The `SandboxResponse` pydantic model (src/d2c.py lines 14-31), after
validation: `created_at` is kept as its (validated) ISO string, and
`credentials` as the field list of the JSON object when present. -/
structure SandboxResponse where
  id : String
  sandbox_type : String
  status : Option String
  created_at : String
  credentials : Option (List (String × Json))
  url : Option String
  deriving Repr, DecidableEq

/-- One `self.credentials[key]` access inside the URL builder: `None`
subscripting raises `TypeError`, a missing key raises `KeyError`. -/
def credLookup (credentials : Option (List (String × Json))) (k : String) : Except PyExc Json :=
  match credentials with
  | none => Except.error (PyExc.typeError "NoneType is not subscriptable")
  | some d =>
      match Json.lookup d k with
      | some v => Except.ok v
      | none => Except.error (PyExc.keyError k)

/-- The URL-constructing f-string of the `postgres` branch of
`validate_credentials` (src/d2c.py line 26). -/
def postgresUrl (credentials : Option (List (String × Json))) : Except PyExc String := do
  let u ← credLookup credentials "user"
  let p ← credLookup credentials "password"
  let h ← credLookup credentials "host"
  let po ← credLookup credentials "port"
  let d ← credLookup credentials "database"
  Except.ok ("postgresql://" ++ pyStr u ++ ":" ++ pyStr p ++ "@" ++ pyStr h ++ ":" ++
    pyStr po ++ "/" ++ pyStr d)

/-- The URL-constructing f-string of the `redis` branch of
`validate_credentials` (src/d2c.py line 28): no database segment. -/
def redisUrl (credentials : Option (List (String × Json))) : Except PyExc String := do
  let u ← credLookup credentials "user"
  let p ← credLookup credentials "password"
  let h ← credLookup credentials "host"
  let po ← credLookup credentials "port"
  Except.ok ("redis://" ++ pyStr u ++ ":" ++ pyStr p ++ "@" ++ pyStr h ++ ":" ++ pyStr po)

/-- `SandboxResponse.validate_credentials` (src/d2c.py lines 22-31): the
derived `url`.  Any exception during construction is swallowed
(`except Exception: pass`) and `url` keeps its default `None`; a
`sandbox_type` outside the two branches also leaves `url` unset. -/
def validate_credentials (sandbox_type : String)
    (credentials : Option (List (String × Json))) : Option String :=
  if sandbox_type = "postgres" then
    match postgresUrl credentials with
    | Except.ok u => some u
    | Except.error _ => none
  else if sandbox_type = "redis" then
    match redisUrl credentials with
    | Except.ok u => some u
    | Except.error _ => none
  else none

/-- `Dev2Cloud._parse_sandbox` (src/d2c.py lines 90-98) followed by the
pydantic validation of `SandboxResponse`.  In Python the keyword
arguments are evaluated first, in order — `data["id"]`,
`data["sandbox_type"]` (required: brackets, so a missing key raises
`KeyError`), `data.get("status")`, `datetime.fromisoformat(data["created_at"])`
(`TypeError` on a non-string, `ValueError` on an invalid ISO string),
`data.get("credentials")` — and then pydantic validates the field types
(`id : str`, `sandbox_type : Literal["postgres", "redis"]`,
`status : Optional[str]`, `credentials : Optional[dict]`) and runs the
`validate_credentials` model validator to fill `url`. -/
def parse_sandbox (data : List (String × Json)) : Except PyExc SandboxResponse := do
  let idJ ← match Json.lookup data "id" with
    | some v => Except.ok v
    | none => Except.error (PyExc.keyError "id")
  let stJ ← match Json.lookup data "sandbox_type" with
    | some v => Except.ok v
    | none => Except.error (PyExc.keyError "sandbox_type")
  let statusJ := Json.lookup data "status"
  let caJ ← match Json.lookup data "created_at" with
    | some v => Except.ok v
    | none => Except.error (PyExc.keyError "created_at")
  let created_at ← match caJ with
    | Json.str s =>
        if fromisoformatOk s then Except.ok s
        else Except.error (PyExc.valueError ("Invalid isoformat string: " ++ s))
    | _ => Except.error (PyExc.typeError "fromisoformat: argument must be str")
  let credJ := Json.lookup data "credentials"
  let id ← match idJ with
    | Json.str s => Except.ok s
    | _ => Except.error (PyExc.validationError "id")
  let sandbox_type ← match stJ with
    | Json.str s =>
        if s = "postgres" ∨ s = "redis" then Except.ok s
        else Except.error (PyExc.validationError "sandbox_type")
    | _ => Except.error (PyExc.validationError "sandbox_type")
  let status ← match statusJ with
    | none => Except.ok (none : Option String)
    | some Json.null => Except.ok (none : Option String)
    | some (Json.str s) => Except.ok (some s)
    | some _ => Except.error (PyExc.validationError "status")
  let credentials ← match credJ with
    | none => Except.ok (none : Option (List (String × Json)))
    | some Json.null => Except.ok (none : Option (List (String × Json)))
    | some (Json.obj fs) => Except.ok (some fs)
    | some _ => Except.error (PyExc.validationError "credentials")
  Except.ok
    { id := id, sandbox_type := sandbox_type, status := status, created_at := created_at,
      credentials := credentials, url := validate_credentials sandbox_type credentials }

/-- `Dev2Cloud.get_sandbox` (src/d2c.py lines 159-173), as a function of
the HTTP response it receives: check the status, then parse the body as
one sandbox object (`_parse_sandbox(response.json())`; a non-dict JSON
body makes the `data[...]` subscripts raise `TypeError`). -/
def get_sandbox (r : HttpResponse) : Except PyExc SandboxResponse := do
  let _ ← raise_on_error r
  match r.json? with
  | none => Except.error (PyExc.valueError "Expecting value")
  | some (Json.obj fs) => parse_sandbox fs
  | some _ => Except.error (PyExc.typeError "indices must be str")

/-- `Dev2Cloud.list_sandboxes` (src/d2c.py lines 102-113), as a function
of the HTTP response: check the status, then parse each element of the
JSON array body (`[_parse_sandbox(item) for item in response.json()]`;
iterating or subscripting a non-array / non-object shape raises
`TypeError`). -/
def list_sandboxes (r : HttpResponse) : Except PyExc (List SandboxResponse) := do
  let _ ← raise_on_error r
  match r.json? with
  | none => Except.error (PyExc.valueError "Expecting value")
  | some (Json.arr items) =>
      items.mapM (fun item =>
        match item with
        | Json.obj fs => parse_sandbox fs
        | _ => Except.error (PyExc.typeError "indices must be str"))
  | some _ => Except.error (PyExc.typeError "not a list of objects")

/-- An observable side effect of `create_sandbox`'s poll loop:
`sleep1` is one `time.sleep(1)` call, `fetch n` is the n-th
`self.get_sandbox(sandbox_id)` re-fetch. -/
inductive Event where
  | sleep1 : Event
  | fetch : Nat → Event
  deriving Repr, DecidableEq

/-- Outcome of `create_sandbox`: the event trace produced, and either the
returned record or the escaped exception.  `fuelOut` is reached only when
the bounding fuel is exhausted, never by runs the theorems consider. -/
inductive CreateResult where
  | ok : List Event → SandboxResponse → CreateResult
  | err : List Event → PyExc → CreateResult
  | fuelOut : CreateResult
  deriving Repr, DecidableEq

/-- Detail string of the timeout error raised by `create_sandbox`
(src/d2c.py lines 146-148). -/
def timeoutMsg (sandbox_id : String) (timeout : ℚ) : String :=
  "Sandbox " ++ sandbox_id ++ " did not become ready within " ++ toString timeout ++ "s"

/-- Detail string of the provisioning-failure error raised by
`create_sandbox` (src/d2c.py line 155). -/
def failedMsg (sandbox_id : String) : String :=
  "Sandbox " ++ sandbox_id ++ " failed to provision"

/-- The polling loop of `create_sandbox` (src/d2c.py lines 143-157)
together with the post-loop `failed` check.  The service's successive
re-fetch responses are abstracted as `poll : Nat → Except PyExc
SandboxResponse` (the value of the n-th `self.get_sandbox(sandbox_id)`
call; an `Except.error` is an exception escaping that call).  `k` counts
the sleeps performed so far, so the elapsed monotonic time is `k`
seconds and the deadline check `time.monotonic() >= deadline` is
`timeout ≤ k`.  `tr` accumulates the event trace. -/
def poll_loop (sandbox_id : String) (timeout : ℚ)
    (poll : Nat → Except PyExc SandboxResponse) : Nat → Nat → List Event → CreateResult
  | _, 0, _ => CreateResult.fuelOut
  | k, fuel + 1, tr =>
    if timeout ≤ (k : ℚ) then
      CreateResult.err tr (PyExc.d2c 0 (Json.str (timeoutMsg sandbox_id timeout)))
    else
      match poll (k + 1) with
      | Except.error e => CreateResult.err (tr ++ [Event.sleep1, Event.fetch (k + 1)]) e
      | Except.ok sandbox =>
        if sandbox.status = some "pending" then
          poll_loop sandbox_id timeout poll (k + 1) fuel
            (tr ++ [Event.sleep1, Event.fetch (k + 1)])
        else if sandbox.status = some "failed" then
          CreateResult.err (tr ++ [Event.sleep1, Event.fetch (k + 1)])
            (PyExc.d2c 0 (Json.str (failedMsg sandbox_id)))
        else
          CreateResult.ok (tr ++ [Event.sleep1, Event.fetch (k + 1)]) sandbox

/-- `Dev2Cloud.create_sandbox` (src/d2c.py lines 115-157) as a function
of the POST response and the abstracted poll results: check the creation
response, read `response.json()["id"]`, then run the poll loop from
elapsed time 0 with an empty trace. -/
def create_sandbox (create_resp : HttpResponse) (timeout : ℚ)
    (poll : Nat → Except PyExc SandboxResponse) (fuel : Nat) : CreateResult :=
  match raise_on_error create_resp with
  | Except.error e => CreateResult.err [] e
  | Except.ok _ =>
    match create_resp.json? with
    | none => CreateResult.err [] (PyExc.valueError "Expecting value")
    | some (Json.obj fs) =>
        match Json.lookup fs "id" with
        | none => CreateResult.err [] (PyExc.keyError "id")
        | some idJ => poll_loop (pyStr idJ) timeout poll 0 fuel []
    | some _ => CreateResult.err [] (PyExc.typeError "indices must be str")

/-- `Dev2Cloud.delete_all` (src/d2c.py lines 190-208) as a function of
the already-listed sandboxes and of each `self.delete_sandbox(sb.id)`
call's outcome (`del_ sb.id`): per-item `Dev2CloudError`s are swallowed
(`except Dev2CloudError: pass`), any other exception propagates, and the
ids of successful deletions are accumulated in attempt order. -/
def delete_all (sandboxes : List SandboxResponse)
    (del_ : String → Except PyExc Unit) : Except PyExc (List String) :=
  match sandboxes with
  | [] => Except.ok []
  | sb :: rest =>
    match del_ sb.id with
    | Except.ok _ =>
        match delete_all rest del_ with
        | Except.ok ids => Except.ok (sb.id :: ids)
        | Except.error e => Except.error e
    | Except.error (PyExc.d2c _ _) => delete_all rest del_
    | Except.error e => Except.error e

/-- A ready (`running`) sandbox record used as a concrete poll result. -/
def runningRecord : SandboxResponse :=
  { id := "sb1", sandbox_type := "postgres", status := some "running",
    created_at := "2024-01-01T00:00:00", credentials := none, url := none }

/-- A `pending` sandbox record used as a concrete poll result. -/
def pendingRecord : SandboxResponse :=
  { runningRecord with status := some "pending" }

/-- A `failed` sandbox record used as a concrete poll result. -/
def failedRecord : SandboxResponse :=
  { runningRecord with status := some "failed" }

/-- A successful creation response carrying the new sandbox's id. -/
def okCreateResp : HttpResponse :=
  { status_code := 201, text := "(body)",
    json? := some (Json.obj [("id", Json.str "sb1"), ("status", Json.str "pending")]) }

/-- The credentials object of the spec's URL-derivation example. -/
def c7creds : List (String × Json) :=
  [("user", Json.str "u"), ("password", Json.str "p"), ("host", Json.str "h"),
   ("port", Json.num 5432), ("database", Json.str "d")]

/-- The event trace of a run that, starting after `k` earlier sleeps,
performs `n` further poll iterations (each one sleep then one re-fetch). -/
def pendingTraceFrom (k : Nat) : Nat → List Event
  | 0 => []
  | n + 1 => Event.sleep1 :: Event.fetch (k + 1) :: pendingTraceFrom (k + 1) n

/-- A service whose every re-fetch reports the `running` record. -/
def alwaysRunning : Nat → Except PyExc SandboxResponse := fun _ => Except.ok runningRecord

/-- A service whose every re-fetch reports the `pending` record. -/
def alwaysPending : Nat → Except PyExc SandboxResponse := fun _ => Except.ok pendingRecord

/-- A service whose every re-fetch reports the `failed` record. -/
def alwaysFailed : Nat → Except PyExc SandboxResponse := fun _ => Except.ok failedRecord

/-- A service that reports `pending` on the first re-fetch and `running`
from the second on. -/
def riseThenRun : Nat → Except PyExc SandboxResponse := fun n =>
  if n ≤ 1 then Except.ok pendingRecord else Except.ok runningRecord

/-- A sandbox object whose status is `pending` yet which carries full
postgres credentials. -/
def pendingWithCreds : List (String × Json) :=
  [("id", Json.str "x"), ("sandbox_type", Json.str "postgres"), ("status", Json.str "pending"),
   ("created_at", Json.str "2024-01-01T00:00:00"), ("credentials", Json.obj c7creds)]

/-- A running redis sandbox object carrying the example credentials. -/
def redisWithCreds : List (String × Json) :=
  [("id", Json.str "x"), ("sandbox_type", Json.str "redis"), ("status", Json.str "running"),
   ("created_at", Json.str "2024-01-01T00:00:00"), ("credentials", Json.obj c7creds)]

/-- A sandbox object without a `credentials` field. -/
def noCredsData : List (String × Json) :=
  [("id", Json.str "x"), ("sandbox_type", Json.str "postgres"),
   ("status", Json.str "pending"), ("created_at", Json.str "2024-01-01T00:00:00")]

/-- An error response whose body is valid JSON but not an object. -/
def jsonArrayBodyResp : HttpResponse :=
  { status_code := 500, text := "[1]", json? := some (Json.arr [Json.num 1]) }

/-- An error response whose JSON-object body carries a `detail` field. -/
def notFoundResp : HttpResponse :=
  { status_code := 404, text := "(raw)",
    json? := some (Json.obj [("detail", Json.str "not found")]) }

/-- Concrete sandboxes for the bulk-delete scenario. -/
def sbA : SandboxResponse := { runningRecord with id := "a" }

/-- Second sandbox of the bulk-delete scenario. -/
def sbB : SandboxResponse := { runningRecord with id := "b" }

/-- Third sandbox of the bulk-delete scenario. -/
def sbC : SandboxResponse := { runningRecord with id := "c" }

/-- A delete outcome map that fails (with the normalized error) exactly
on sandbox id `b`. -/
def delFailB : String → Except PyExc Unit := fun i =>
  if i = "b" then Except.error (PyExc.d2c 500 (Json.str "boom")) else Except.ok ()

/-- Claim C1, counterexample: against a service that reports `running` on
the very first re-fetch, `create_sandbox` still performs one 1-second
sleep and one re-fetch before returning — its trace is not empty, so the
claim that it returns "without ever sleeping (no 1-second wait and no
polling re-fetch)" is false on the code. -/
theorem create_immediate_running_still_sleeps :
    create_sandbox okCreateResp 180 alwaysRunning 200
      = CreateResult.ok [Event.sleep1, Event.fetch 1] runningRecord
    ∧ create_sandbox okCreateResp 180 alwaysRunning 200
      ≠ CreateResult.ok [] runningRecord := by decide

/-- Claim C1, amended: for every create call against a service that
reports `running` on the first poll, `create_sandbox` performs exactly
one 1-second sleep followed by exactly one status re-fetch and then
returns the ready record. -/
theorem create_immediately_running_polls_once
    (resp : HttpResponse) (fs : List (String × Json)) (idJ : Json) (timeout : ℚ)
    (poll : Nat → Except PyExc SandboxResponse) (r : SandboxResponse) (fuel : Nat)
    (hok : resp.ok = true) (hjson : resp.json? = some (Json.obj fs))
    (hid : Json.lookup fs "id" = some idJ)
    (ht : 0 < timeout) (hfuel : 0 < fuel)
    (hpoll : poll 1 = Except.ok r) (hr : r.status = some "running") :
    create_sandbox resp timeout poll fuel
      = CreateResult.ok [Event.sleep1, Event.fetch 1] r := by
  obtain ⟨f, rfl⟩ : ∃ f, fuel = f + 1 := ⟨fuel - 1, by omega⟩
  simp only [create_sandbox, raise_on_error, hok, if_true, hjson, hid]
  simp only [poll_loop]
  rw [if_neg (by simpa using not_le.mpr ht)]
  rw [hpoll]
  simp [hr]

/-- Claim C1, witness for the amended theorem at a concrete input. -/
theorem create_immediately_running_polls_once_witness :
    create_sandbox okCreateResp 7 alwaysRunning 5
      = CreateResult.ok [Event.sleep1, Event.fetch 1] runningRecord :=
  create_immediately_running_polls_once okCreateResp _ _ 7 alwaysRunning runningRecord 5
    rfl rfl rfl (by norm_num) (by norm_num) rfl rfl

/-- Claim C2, counterexample: a non-success response whose body is valid
JSON but not an object (here the array `[1]`) makes `_raise_on_error`
raise `AttributeError` from `.get`, not the normalized error with the raw
body text that the claim requires. -/
theorem raise_on_error_nonobject_body_attribute_error :
    raise_on_error jsonArrayBodyResp = Except.error (PyExc.attributeError "get")
    ∧ raise_on_error jsonArrayBodyResp ≠ Except.error (PyExc.d2c 500 (Json.str "[1]")) := by
  decide

/-- Claim C2, amended: for every non-success response the raised
normalized error preserves the HTTP status code verbatim and takes its
detail from the JSON-object body's `detail` field when present, falling
back to the raw body text when the field is absent or the body fails to
parse as JSON (no secondary parsing error in that case); however, when
the body is valid JSON that is not an object, an `AttributeError` escapes
instead of the normalized error. -/
theorem raise_on_error_normalization (r : HttpResponse) (h : r.ok = false) :
    (r.json? = none →
      raise_on_error r = Except.error (PyExc.d2c r.status_code (Json.str r.text)))
    ∧ (∀ fs, r.json? = some (Json.obj fs) →
      raise_on_error r
        = Except.error (PyExc.d2c r.status_code
            ((Json.lookup fs "detail").getD (Json.str r.text))))
    ∧ (∀ j, r.json? = some j → (∀ fs, j ≠ Json.obj fs) →
      raise_on_error r = Except.error (PyExc.attributeError "get")) := by
  refine ⟨?_, ?_, ?_⟩
  · intro hj
    simp [raise_on_error, h, hj]
  · intro fs hj
    simp [raise_on_error, h, hj]
  · intro j hj hobj
    cases j with
    | obj fs => exact absurd rfl (hobj fs)
    | null => simp [raise_on_error, h, hj]
    | bool b => simp [raise_on_error, h, hj]
    | num n => simp [raise_on_error, h, hj]
    | str s => simp [raise_on_error, h, hj]
    | arr xs => simp [raise_on_error, h, hj]

/-- Claim C2, witness: a 404 whose object body has a `detail` field
yields the normalized error `(404, "not found")`. -/
theorem raise_on_error_normalization_witness :
    raise_on_error notFoundResp = Except.error (PyExc.d2c 404 (Json.str "not found")) := by
  have := (raise_on_error_normalization notFoundResp rfl).2.1
    [("detail", Json.str "not found")] rfl
  simpa [notFoundResp] using this

/-- Claim C3: against a service whose status is `pending` at creation
and whose two polls then observe `pending` and `running`, `create_sandbox`
performs exactly two status re-fetches, each preceded by exactly one
1-second sleep, and returns the final (running) record. -/
theorem create_two_polls_pending_then_running
    (resp : HttpResponse) (fs : List (String × Json)) (idJ : Json) (timeout : ℚ)
    (poll : Nat → Except PyExc SandboxResponse) (r1 r2 : SandboxResponse) (fuel : Nat)
    (hok : resp.ok = true) (hjson : resp.json? = some (Json.obj fs))
    (hid : Json.lookup fs "id" = some idJ)
    (ht : 1 < timeout) (hfuel : 2 ≤ fuel)
    (hp1 : poll 1 = Except.ok r1) (hs1 : r1.status = some "pending")
    (hp2 : poll 2 = Except.ok r2) (hs2 : r2.status = some "running") :
    create_sandbox resp timeout poll fuel
      = CreateResult.ok [Event.sleep1, Event.fetch 1, Event.sleep1, Event.fetch 2] r2 := by
  obtain ⟨f, rfl⟩ : ∃ f, fuel = f + 2 := ⟨fuel - 2, by omega⟩
  simp only [create_sandbox, raise_on_error, hok, if_true, hjson, hid]
  simp only [poll_loop]
  rw [if_neg (by simpa using not_le.mpr (lt_trans zero_lt_one ht))]
  rw [hp1]
  simp only [hs1, if_true, poll_loop, List.nil_append]
  rw [if_neg (by simpa using not_le.mpr ht)]
  rw [hp2]
  simp [hs2]

/-- Claim C3, witness at a concrete input. -/
theorem create_two_polls_pending_then_running_witness :
    create_sandbox okCreateResp 180 riseThenRun 10
      = CreateResult.ok [Event.sleep1, Event.fetch 1, Event.sleep1, Event.fetch 2]
          runningRecord :=
  create_two_polls_pending_then_running okCreateResp _ _ 180 riseThenRun
    pendingRecord runningRecord 10 rfl rfl rfl (by norm_num) (by norm_num) rfl rfl rfl rfl

/-- Claim C4, counterexample: with timeout 2 and a service that stays
`pending`, the timeout error is raised at the deadline check where the
elapsed time (two 1-second sleeps) still equals the timeout — the claim
that no error is raised while elapsed time is at most the timeout is
false on the code, whose check is `time.monotonic() >= deadline`. -/
theorem create_timeout_fires_at_exactly_timeout :
    create_sandbox okCreateResp 2 alwaysPending 100
      = CreateResult.err [Event.sleep1, Event.fetch 1, Event.sleep1, Event.fetch 2]
          (PyExc.d2c 0 (Json.str "Sandbox sb1 did not become ready within 2s"))
    ∧ (([Event.sleep1, Event.fetch 1, Event.sleep1, Event.fetch 2].count Event.sleep1 : ℚ))
        ≤ 2 := by
  decide

/-- Helper: against an always-`pending` service the poll loop, entered
after `k` sleeps, runs until the first deadline check with elapsed time
at least the timeout and raises the timeout error there. -/
theorem poll_loop_pending_forever (id : String) (t : ℚ)
    (poll : Nat → Except PyExc SandboxResponse)
    (hpoll : ∀ n, ∃ r, poll n = Except.ok r ∧ r.status = some "pending") :
    ∀ fuel k tr, k ≤ ⌈t⌉₊ → ⌈t⌉₊ - k < fuel →
      poll_loop id t poll k fuel tr
        = CreateResult.err (tr ++ pendingTraceFrom k (⌈t⌉₊ - k))
            (PyExc.d2c 0 (Json.str (timeoutMsg id t))) := by
  intro fuel
  induction fuel with
  | zero => intro k tr _ h2; omega
  | succ f ih =>
    intro k tr hk hfuel
    by_cases hdl : t ≤ (k : ℚ)
    · have hck : ⌈t⌉₊ ≤ k := Nat.ceil_le.mpr hdl
      have : ⌈t⌉₊ - k = 0 := by omega
      simp only [poll_loop, if_pos hdl, this, pendingTraceFrom, List.append_nil]
    · have hck : k < ⌈t⌉₊ := Nat.lt_ceil.mpr (not_le.mp hdl)
      obtain ⟨r, hr, hst⟩ := hpoll (k + 1)
      simp only [poll_loop, if_neg hdl, hr, hst, if_true]
      rw [ih (k + 1) (tr ++ [Event.sleep1, Event.fetch (k + 1)]) (by omega) (by omega)]
      have : ⌈t⌉₊ - k = (⌈t⌉₊ - (k + 1)) + 1 := by omega
      rw [this]
      simp [pendingTraceFrom]

/-- Claim C4, amended: against a service that stays `pending` on every
poll, `create_sandbox` raises the timeout error — whose detail names the
sandbox id and the timeout value — at the first deadline check where the
elapsed time reaches the timeout `t` (that is, after `⌈t⌉₊` one-second
sleeps, a time that is at least `t`), and never raises while elapsed
time is strictly below `t`. -/
theorem create_pending_forever_times_out
    (resp : HttpResponse) (fs : List (String × Json)) (idJ : Json) (t : ℚ)
    (poll : Nat → Except PyExc SandboxResponse) (fuel : Nat)
    (hok : resp.ok = true) (hjson : resp.json? = some (Json.obj fs))
    (hid : Json.lookup fs "id" = some idJ)
    (hpoll : ∀ n, ∃ r, poll n = Except.ok r ∧ r.status = some "pending")
    (hfuel : ⌈t⌉₊ < fuel) :
    create_sandbox resp t poll fuel
      = CreateResult.err (pendingTraceFrom 0 ⌈t⌉₊)
          (PyExc.d2c 0 (Json.str (timeoutMsg (pyStr idJ) t)))
    ∧ t ≤ (⌈t⌉₊ : ℚ)
    ∧ (∀ m : Nat, m < ⌈t⌉₊ → (m : ℚ) < t) := by
  refine ⟨?_, Nat.le_ceil t, fun m hm => Nat.lt_ceil.mp hm⟩
  simp only [create_sandbox, raise_on_error, hok, if_true, hjson, hid]
  have := poll_loop_pending_forever (pyStr idJ) t poll hpoll fuel 0 [] (by omega) (by omega)
  simpa using this

/-- Claim C4, witness for the amended theorem at timeout 3. -/
theorem create_pending_forever_times_out_witness :
    create_sandbox okCreateResp 3 alwaysPending 10
      = CreateResult.err (pendingTraceFrom 0 3)
          (PyExc.d2c 0 (Json.str "Sandbox sb1 did not become ready within 3s")) := by
  have := (create_pending_forever_times_out okCreateResp _ _ 3 alwaysPending 10
    rfl rfl rfl (fun n => ⟨pendingRecord, rfl, rfl⟩) (by norm_num)).1
  simpa [timeoutMsg, pyStr] using this

/-- Helper: one step of the poll loop when the polled status has left
`pending` — a `failed` status raises the provisioning-failure error, any
other non-pending status returns that record. -/
theorem poll_loop_leaves_pending (id : String) (t : ℚ)
    (poll : Nat → Except PyExc SandboxResponse) (fuel k : Nat) (tr : List Event)
    (r : SandboxResponse) (hdl : ¬ t ≤ (k : ℚ)) (hp : poll (k + 1) = Except.ok r) :
    (r.status = some "failed" →
      poll_loop id t poll k (fuel + 1) tr
        = CreateResult.err (tr ++ [Event.sleep1, Event.fetch (k + 1)])
            (PyExc.d2c 0 (Json.str (failedMsg id))))
    ∧ (r.status ≠ some "pending" → r.status ≠ some "failed" →
      poll_loop id t poll k (fuel + 1) tr
        = CreateResult.ok (tr ++ [Event.sleep1, Event.fetch (k + 1)]) r) := by
  constructor
  · intro hfail
    simp only [poll_loop, if_neg hdl, hp]
    rw [if_neg (by rw [hfail]; simp), if_pos hfail]
  · intro hpend hfail
    simp only [poll_loop, if_neg hdl, hp]
    rw [if_neg hpend, if_neg hfail]

/-- Helper: an `ok` outcome of the poll loop never carries status
`pending` or `failed`. -/
theorem poll_loop_ok_status (id : String) (t : ℚ)
    (poll : Nat → Except PyExc SandboxResponse) :
    ∀ fuel k tr tr' r, poll_loop id t poll k fuel tr = CreateResult.ok tr' r →
      r.status ≠ some "pending" ∧ r.status ≠ some "failed" := by
  intro fuel
  induction fuel with
  | zero => intro k tr tr' r h; exact absurd h (by simp [poll_loop])
  | succ f ih =>
    intro k tr tr' r h
    simp only [poll_loop] at h
    by_cases hdl : t ≤ (k : ℚ)
    · rw [if_pos hdl] at h; exact absurd h (by simp)
    · rw [if_neg hdl] at h
      cases hp : poll (k + 1) with
      | error e => rw [hp] at h; exact absurd h (by simp)
      | ok sandbox =>
        rw [hp] at h
        dsimp only at h
        by_cases hpend : sandbox.status = some "pending"
        · rw [if_pos hpend] at h
          exact ih (k + 1) (tr ++ [Event.sleep1, Event.fetch (k + 1)]) tr' r h
        · rw [if_neg hpend] at h
          by_cases hfail : sandbox.status = some "failed"
          · rw [if_pos hfail] at h; exact absurd h (by simp)
          · rw [if_neg hfail] at h
            cases h
            exact ⟨hpend, hfail⟩

/-- Helper: a record returned by `create_sandbox` never has status
`pending` or `failed`. -/
theorem create_sandbox_never_returns_failed
    (resp : HttpResponse) (t : ℚ) (poll : Nat → Except PyExc SandboxResponse)
    (fuel : Nat) (tr : List Event) (r : SandboxResponse)
    (h : create_sandbox resp t poll fuel = CreateResult.ok tr r) :
    r.status ≠ some "pending" ∧ r.status ≠ some "failed" := by
  simp only [create_sandbox] at h
  cases hro : raise_on_error resp with
  | error e => rw [hro] at h; simp at h
  | ok u =>
    rw [hro] at h
    try dsimp only at h
    cases hj : resp.json? with
    | none => rw [hj] at h; simp at h
    | some j =>
      rw [hj] at h
      try dsimp only at h
      cases j with
      | obj fs =>
        try dsimp only at h
        cases hl : Json.lookup fs "id" with
        | none => rw [hl] at h; simp at h
        | some idJ =>
          rw [hl] at h
          try dsimp only at h
          exact poll_loop_ok_status (pyStr idJ) t poll fuel 0 [] tr r h
      | null => simp at h
      | bool b => simp at h
      | num n => simp at h
      | str s => simp at h
      | arr xs => simp at h

/-- Claim C5: once the polled status leaves `pending`, a `failed` status
makes `create_sandbox` raise the provisioning-failure error (status code
0, detail naming the sandbox id), any other non-pending status value
makes it return that record, and a record returned by `create_sandbox`
never has status `failed`. -/
theorem create_status_leaves_pending_semantics :
    (∀ (id : String) (t : ℚ) (poll : Nat → Except PyExc SandboxResponse) (fuel k : Nat)
       (tr : List Event) (r : SandboxResponse),
      ¬ t ≤ (k : ℚ) → poll (k + 1) = Except.ok r →
      ((r.status = some "failed" →
        poll_loop id t poll k (fuel + 1) tr
          = CreateResult.err (tr ++ [Event.sleep1, Event.fetch (k + 1)])
              (PyExc.d2c 0 (Json.str (failedMsg id))))
      ∧ (r.status ≠ some "pending" → r.status ≠ some "failed" →
        poll_loop id t poll k (fuel + 1) tr
          = CreateResult.ok (tr ++ [Event.sleep1, Event.fetch (k + 1)]) r)))
    ∧ (∀ (resp : HttpResponse) (t : ℚ) (poll : Nat → Except PyExc SandboxResponse)
       (fuel : Nat) (tr : List Event) (r : SandboxResponse),
      create_sandbox resp t poll fuel = CreateResult.ok tr r → r.status ≠ some "failed") :=
  ⟨fun id t poll fuel k tr r hdl hp => poll_loop_leaves_pending id t poll fuel k tr r hdl hp,
   fun resp t poll fuel tr r h => (create_sandbox_never_returns_failed resp t poll fuel tr r h).2⟩

/-- Claim C5, witness: a `failed` first poll raises the
provisioning-failure error for sandbox `sb1`. -/
theorem create_status_leaves_pending_semantics_witness :
    poll_loop "sb1" 180 alwaysFailed 0 (4 + 1) []
      = CreateResult.err [Event.sleep1, Event.fetch 1]
          (PyExc.d2c 0 (Json.str (failedMsg "sb1"))) := by
  have := (create_status_leaves_pending_semantics.1 "sb1" 180 alwaysFailed 4 0 [] failedRecord
    (by norm_num) rfl).1 rfl
  simpa using this

/-- Helper: when every per-item delete succeeds, `delete_all` returns
all ids in listing order. -/
theorem delete_all_all_success (del_ : String → Except PyExc Unit) :
    ∀ sandboxes : List SandboxResponse,
      (∀ sb ∈ sandboxes, del_ sb.id = Except.ok ()) →
      delete_all sandboxes del_ = Except.ok (sandboxes.map SandboxResponse.id) := by
  intro sandboxes
  induction sandboxes with
  | nil => intro _; rfl
  | cons sb rest ih =>
    intro h
    have hsb : del_ sb.id = Except.ok () := h sb (by simp)
    simp only [delete_all, hsb]
    rw [ih (fun x hx => h x (by simp [hx]))]
    simp

/-- Helper: when exactly the `k`-th delete fails with the normalized
error, `delete_all` returns all other ids in listing order. -/
theorem delete_all_single_failure
    (del_ : String → Except PyExc Unit) :
    ∀ (sandboxes : List SandboxResponse) (k : Nat) (hk : k < sandboxes.length),
      (∃ c d, del_ ((sandboxes.get ⟨k, hk⟩).id) = Except.error (PyExc.d2c c d)) →
      (∀ i (hi : i < sandboxes.length), i ≠ k →
        del_ ((sandboxes.get ⟨i, hi⟩).id) = Except.ok ()) →
      delete_all sandboxes del_
        = Except.ok ((sandboxes.map SandboxResponse.id).eraseIdx k) := by
  intro sandboxes
  induction sandboxes with
  | nil => intro k hk; exact absurd hk (by simp)
  | cons sb rest ih =>
    intro k hk hfail hsucc
    cases k with
    | zero =>
      obtain ⟨c, d, hcd⟩ := hfail
      simp only [List.get] at hcd
      simp only [delete_all, hcd]
      rw [delete_all_all_success del_ rest ?_]
      · simp [List.eraseIdx]
      · intro x hx
        obtain ⟨⟨i, hi⟩, rfl⟩ := List.mem_iff_get.mp hx
        have := hsucc (i + 1) (by exact Nat.succ_lt_succ hi) (by omega)
        simpa using this
    | succ j =>
      have h0 : del_ sb.id = Except.ok () := by
        have := hsucc 0 (by simp) (by omega)
        simpa using this
      simp only [delete_all, h0]
      rw [ih j (by simpa using Nat.lt_of_succ_lt_succ hk) ?_ ?_]
      · simp [List.eraseIdx]
      · obtain ⟨c, d, hcd⟩ := hfail
        exact ⟨c, d, by simpa using hcd⟩
      · intro i hi hij
        have := hsucc (i + 1) (by simpa using Nat.succ_lt_succ hi) (by omega)
        simpa using this

/-- Claim C6: when the delete of exactly one of the listed sandboxes
fails with the normalized error and all others succeed, `delete_all`
raises nothing and returns exactly the other ids, in listing (attempt)
order — one fewer than the number of sandboxes. -/
theorem delete_all_one_failure_returns_rest
    (sandboxes : List SandboxResponse) (del_ : String → Except PyExc Unit)
    (k : Nat) (hk : k < sandboxes.length)
    (hfail : ∃ c d, del_ ((sandboxes.get ⟨k, hk⟩).id) = Except.error (PyExc.d2c c d))
    (hsucc : ∀ i (hi : i < sandboxes.length), i ≠ k →
      del_ ((sandboxes.get ⟨i, hi⟩).id) = Except.ok ()) :
    delete_all sandboxes del_
      = Except.ok ((sandboxes.map SandboxResponse.id).eraseIdx k)
    ∧ ((sandboxes.map SandboxResponse.id).eraseIdx k).length = sandboxes.length - 1 := by
  refine ⟨delete_all_single_failure del_ sandboxes k hk hfail hsucc, ?_⟩
  rw [List.length_eraseIdx]
  simp [hk]

/-- Claim C6, witness: of three sandboxes `a`, `b`, `c` with the delete
of `b` failing, `delete_all` returns `[a, c]`. -/
theorem delete_all_one_failure_returns_rest_witness :
    delete_all [sbA, sbB, sbC] delFailB = Except.ok ["a", "c"] := by
  have := (delete_all_one_failure_returns_rest [sbA, sbB, sbC] delFailB 1 (by norm_num)
    ⟨500, Json.str "boom", by decide⟩
    (by intro i hi hik
        have h3 : i < 3 := by simpa using hi
        interval_cases i
        · rfl
        · exact absurd rfl hik
        · rfl)).1
  simpa using this

/-- Claim C7: with credentials user `u`, password `p`, host `h`, port
5432, database `d`, a `postgres` record derives the url
`postgresql://u:p@h:5432/d` and a `redis` record derives
`redis://u:p@h:5432` (no database segment) — both at the level of the
`validate_credentials` builder and of a full parsed record. -/
theorem derived_url_postgres_redis :
    validate_credentials "postgres" (some c7creds) = some "postgresql://u:p@h:5432/d"
    ∧ validate_credentials "redis" (some c7creds) = some "redis://u:p@h:5432"
    ∧ parse_sandbox pendingWithCreds
        = Except.ok
            { id := "x", sandbox_type := "postgres", status := some "pending",
              created_at := "2024-01-01T00:00:00", credentials := some c7creds,
              url := some "postgresql://u:p@h:5432/d" }
    ∧ parse_sandbox redisWithCreds
        = Except.ok
            { id := "x", sandbox_type := "redis", status := some "running",
              created_at := "2024-01-01T00:00:00", credentials := some c7creds,
              url := some "redis://u:p@h:5432" } := by
  refine ⟨rfl, rfl, by decide, by decide⟩

/-- Claim C8, counterexample: the client does not enforce the claimed
invariant — a service response with status `pending` that carries
credentials parses into a record whose credentials are present and whose
url is populated. -/
theorem pending_record_with_credentials_parses :
    parse_sandbox pendingWithCreds
      = Except.ok
          { id := "x", sandbox_type := "postgres", status := some "pending",
            created_at := "2024-01-01T00:00:00", credentials := some c7creds,
            url := some "postgresql://u:p@h:5432/d" }
    ∧ (some c7creds ≠ (none : Option (List (String × Json))))
    ∧ (some "postgresql://u:p@h:5432/d" ≠ (none : Option String)) := by
  refine ⟨by decide, by simp, by simp⟩

/-- Helper: with no credentials the url builder leaves the url unset for
every sandbox type. -/
theorem validate_credentials_no_credentials (st : String) :
    validate_credentials st none = none := by
  unfold validate_credentials
  split
  · rfl
  · split
    · rfl
    · rfl

/-- Helper: a successfully parsed record's url is exactly what the
model validator derives from its type and credentials. -/
theorem parse_sandbox_url_eq (data : List (String × Json)) (r : SandboxResponse)
    (h : parse_sandbox data = Except.ok r) :
    r.url = validate_credentials r.sandbox_type r.credentials := by
  unfold parse_sandbox at h
  simp only [bind, Except.bind] at h
  iterate 12 (all_goals try split at h)
  all_goals try exact Except.noConfusion h
  all_goals (cases h; rfl)

/-- Claim C8, amended: the parser does not tie status `pending` to the
absence of credentials; what holds is that a record parsed with no
credentials has its derived url unset. -/
theorem record_without_credentials_has_no_url
    (data : List (String × Json)) (r : SandboxResponse)
    (h : parse_sandbox data = Except.ok r) (hc : r.credentials = none) :
    r.url = none := by
  rw [parse_sandbox_url_eq data r h, hc, validate_credentials_no_credentials]

/-- Claim C8, witness: a pending record parsed without a credentials
field has no url. -/
theorem record_without_credentials_has_no_url_witness :
    ({ id := "x", sandbox_type := "postgres", status := some "pending",
       created_at := "2024-01-01T00:00:00", credentials := none,
       url := none } : SandboxResponse).url = none :=
  record_without_credentials_has_no_url noCredsData _ (by decide) rfl

/-- Claim C9, counterexample: a sandbox object without the
`sandbox_type` field does not parse — `data["sandbox_type"]` raises
`KeyError`, so `list` and `get` fail rather than succeed on it. -/
theorem parse_without_sandbox_type_raises_keyerror :
    parse_sandbox
        [("id", Json.str "x"), ("status", Json.str "pending"),
         ("created_at", Json.str "2024-01-01T00:00:00")]
      = Except.error (PyExc.keyError "sandbox_type") := by
  decide

/-- Claim C9, amended: `sandbox_type` is a required field in this
revision — for every sandbox object lacking it, parsing never succeeds,
and `get` on a success response with such a body never returns a
record. -/
theorem missing_sandbox_type_fails_parse
    (data : List (String × Json)) (h : Json.lookup data "sandbox_type" = none) :
    (∀ r, parse_sandbox data ≠ Except.ok r)
    ∧ (∀ resp : HttpResponse, resp.ok = true → resp.json? = some (Json.obj data) →
        ∀ r, get_sandbox resp ≠ Except.ok r) := by
  have hp : ∀ r, parse_sandbox data ≠ Except.ok r := by
    intro r hr
    unfold parse_sandbox at hr
    simp only [bind, Except.bind] at hr
    cases hid : Json.lookup data "id" with
    | none => rw [hid] at hr; exact Except.noConfusion hr
    | some v => rw [hid, h] at hr; exact Except.noConfusion hr
  refine ⟨hp, ?_⟩
  intro resp hok hjson r hr
  unfold get_sandbox at hr
  simp only [bind, Except.bind, raise_on_error, hok, if_true, hjson] at hr
  exact hp r hr

/-- Claim C9, witness at a concrete body lacking `sandbox_type`. -/
theorem missing_sandbox_type_fails_parse_witness :
    parse_sandbox [("id", Json.str "x"), ("created_at", Json.str "2024-01-01T00:00:00")]
      ≠ Except.ok runningRecord :=
  (missing_sandbox_type_fails_parse
    [("id", Json.str "x"), ("created_at", Json.str "2024-01-01T00:00:00")] rfl).1 runningRecord

/-- Helper: every parse failure of a sandbox object is a raw Python
exception, never the normalized `Dev2CloudError`. -/
theorem parse_sandbox_error_raw (data : List (String × Json)) (e : PyExc)
    (h : parse_sandbox data = Except.error e) : ∀ c d, e ≠ PyExc.d2c c d := by
  unfold parse_sandbox at h
  simp only [bind, Except.bind] at h
  iterate 12 (all_goals try split at h)
  all_goals try exact Except.noConfusion h
  all_goals (cases h; intro c d; exact PyExc.noConfusion)

/-- Claim C10: on a success (2xx) response whose object body is missing
`id`, `sandbox_type` or `created_at`, or whose `created_at` is not a
valid ISO string, `get` raises the corresponding raw `KeyError` /
`ValueError`; every error escaping the parse of a success body is not
the normalized error type; a parse failure propagates unwrapped out of
`list`; and `create` with a success body lacking `id` raises the raw
`KeyError` before polling. -/
theorem malformed_success_body_raises_raw
    (resp : HttpResponse) (fs : List (String × Json))
    (hok : resp.ok = true) (hjson : resp.json? = some (Json.obj fs)) :
    (Json.lookup fs "id" = none →
      get_sandbox resp = Except.error (PyExc.keyError "id"))
    ∧ (∀ v, Json.lookup fs "id" = some v → Json.lookup fs "sandbox_type" = none →
      get_sandbox resp = Except.error (PyExc.keyError "sandbox_type"))
    ∧ (∀ v w, Json.lookup fs "id" = some v → Json.lookup fs "sandbox_type" = some w →
      Json.lookup fs "created_at" = none →
      get_sandbox resp = Except.error (PyExc.keyError "created_at"))
    ∧ (∀ v w s, Json.lookup fs "id" = some v → Json.lookup fs "sandbox_type" = some w →
      Json.lookup fs "created_at" = some (Json.str s) → fromisoformatOk s = false →
      get_sandbox resp = Except.error (PyExc.valueError ("Invalid isoformat string: " ++ s)))
    ∧ (∀ e, get_sandbox resp = Except.error e → ∀ c d, e ≠ PyExc.d2c c d)
    ∧ (∀ rl : HttpResponse, rl.ok = true → rl.json? = some (Json.arr [Json.obj fs]) →
      ∀ e, parse_sandbox fs = Except.error e → list_sandboxes rl = Except.error e)
    ∧ (Json.lookup fs "id" = none → ∀ (t : ℚ) poll fuel,
      create_sandbox resp t poll fuel = CreateResult.err [] (PyExc.keyError "id")) := by
  have hget : get_sandbox resp = parse_sandbox fs := by
    unfold get_sandbox
    simp [bind, Except.bind, raise_on_error, hok, hjson]
  refine ⟨?_, ?_, ?_, ?_, ?_, ?_, ?_⟩
  · intro hid
    rw [hget]
    unfold parse_sandbox
    simp [bind, Except.bind, hid]
  · intro v hid hst
    rw [hget]
    unfold parse_sandbox
    simp [bind, Except.bind, hid, hst]
  · intro v w hid hst hca
    rw [hget]
    unfold parse_sandbox
    simp [bind, Except.bind, hid, hst, hca]
  · intro v w s hid hst hca hiso
    rw [hget]
    unfold parse_sandbox
    simp [bind, Except.bind, hid, hst, hca, hiso]
  · intro e he
    rw [hget] at he
    exact parse_sandbox_error_raw fs e he
  · intro rl hlok hljson e he
    unfold list_sandboxes
    simp [bind, Except.bind, raise_on_error, hlok, hljson, List.mapM, List.mapM.loop, he]
  · intro hid t poll fuel
    unfold create_sandbox
    simp [raise_on_error, hok, hjson, hid]

/-- Claim C10, witness: a 200 response with an empty object body makes
`get` raise the raw `KeyError` for `id`. -/
theorem malformed_success_body_raises_raw_witness :
    get_sandbox { status_code := 200, text := "\x7b\x7d", json? := some (Json.obj []) }
      = Except.error (PyExc.keyError "id") :=
  (malformed_success_body_raises_raw
    { status_code := 200, text := "\x7b\x7d", json? := some (Json.obj []) } [] rfl rfl).1 rfl
